import Mathlib

/-!
Verification of the Open3D VoxelBlockGrid specification against the source of
src/unnamed/part_002 (cpp/open3d/t/geometry/VoxelBlockGrid.cpp) and
src/cpp/open3d/t/geometry/PointCloud.cpp.

Numeric modelling conventions: C++ float arithmetic on the small exact values at
issue (half-integer multipliers) is modelled over ℚ; C++ signed/unsigned integer
arithmetic over ℤ/ℕ (the quantities involved never overflow Int64 in the claims
considered); a C++ function that can throw returns in the Except monad, with the
grid state threaded explicitly so that a throw leaves the incoming state intact,
exactly as an exception propagating out of a method leaves the object unchanged
when the throw happens before any member mutation.
-/

namespace Open3DVBG

/-- Model of core::Dtype. -/
inductive Dtype
  | uint8 | uint16 | int32 | int64 | float32 | float64 | boolTy
  deriving DecidableEq, Repr

/-- Shape/dtype/device metadata of a core::Tensor, the part the validation
functions inspect. -/
structure TensorMeta where
  shape : List ℕ
  dtype : Dtype
  device : String
  deriving DecidableEq, Repr

/-- std::unordered_map<std::string, int>::count for the name→slot map:
number of entries with the given key (0 or 1 for a map). -/
def mapCount (m : List (String × ℕ)) (k : String) : ℕ :=
  (m.filter (fun p => p.1 == k)).length

/-- std::unordered_map<std::string, int>::at — returns the mapped value, or
throws std::out_of_range when the key is absent. -/
def mapAt (m : List (String × ℕ)) (k : String) : Except String ℕ :=
  match m.find? (fun p => p.1 == k) with
  | some p => Except.ok p.2
  | none => Except.error "std::out_of_range"

/-- Shallow embedding of VoxelBlockGrid::GetAttribute (part_002, lines 84-91).
utility::LogWarning only records a message and returns; the subsequent
name_attr_map_.at(attr_name) throws std::out_of_range when the name was never
configured, so the body is sequenced in the Except monad. getValueTensor stands
for block_hashmap_->GetValueTensor, reached only when .at succeeds. Result:
(warnings logged, value or exception). -/
def GetAttribute (name_attr_map : List (String × ℕ))
    (getValueTensor : ℕ → List ℚ) (attr_name : String) :
    List String × Except String (List ℚ) :=
  let warns :=
    if mapCount name_attr_map attr_name = 0 then
      ["Attribute " ++ attr_name ++ " not found, return empty tensor."]
    else []
  match mapAt name_attr_map attr_name with
  | Except.ok buffer_idx => (warns, Except.ok (getValueTensor buffer_idx))
  | Except.error e => (warns, Except.error e)

/-- Truncation distance handed to kernel::voxel_grid::DepthTouch by
GetUniqueBlockCoordinates(depth) (part_002 lines 166-172):
trunc_multiplier = block_resolution_ * 0.5 and the kernel receives
voxel_size_ * trunc_multiplier. -/
def depthTouchTruncDist (voxel_size : ℚ) (block_resolution : ℤ) : ℚ :=
  let trunc_multiplier : ℚ := (block_resolution : ℚ) * (1/2)
  voxel_size * trunc_multiplier

/-- Truncation distance handed to kernel::voxel_grid::PointCloudTouch by
GetUniqueBlockCoordinates(pcd) (part_002 lines 190-194):
trunc_multiplier = block_resolution_ * 0.5 - 1 and the kernel receives
voxel_size_ * trunc_multiplier. -/
def pointCloudTouchTruncDist (voxel_size : ℚ) (block_resolution : ℤ) : ℚ :=
  let trunc_multiplier : ℚ := (block_resolution : ℚ) * (1/2) - 1
  voxel_size * trunc_multiplier

/-- Per-linear-index body of VoxelBlockGrid::GetVoxelIndices (part_002 lines
115-138): block index, then voxel_x, voxel_y, voxel_z computed from the
remainder exactly as the tensor expressions do elementwise (operator % is
unavailable there, hence the sub/div/mul forms). Linear indices come from
Arange and are nonnegative, so ℕ is the faithful carrier. -/
def voxelIndexDecompose (resolution l : ℕ) : ℕ × ℕ × ℕ × ℕ :=
  let resolution2 := resolution * resolution
  let resolution3 := resolution2 * resolution
  let block_idx := l / resolution3
  let remainder := l - block_idx * resolution3
  let voxel_z := remainder / resolution2
  let voxel_y := (remainder - voxel_z * resolution2) / resolution
  let voxel_x := remainder - (remainder / resolution) * resolution
  (block_idx, voxel_x, voxel_y, voxel_z)

/-- Per-index body of VoxelBlockGrid::GetVoxelCoordinates (part_002 lines
93-105): voxel_coords = key * block_resolution, then the x/y/z offsets of the
voxel index are added componentwise. -/
def getVoxelCoordinatesAt (block_resolution : ℤ) (key : ℤ × ℤ × ℤ)
    (offset : ℤ × ℤ × ℤ) : ℤ × ℤ × ℤ :=
  (key.1 * block_resolution + offset.1,
   key.2.1 * block_resolution + offset.2.1,
   key.2.2 * block_resolution + offset.2.2)

/-- The frustum scratch hash map of the touch passes: its capacity (fixed at
construction of the map) and its current key set. -/
structure ScratchHashMap where
  capacity : ℕ
  keys : List (ℤ × ℤ × ℤ)
  deriving DecidableEq, Repr

/-- core::HashMap::Clear — empties the key set, keeps the allocation
(capacity unchanged). -/
def ScratchHashMap.Clear (h : ScratchHashMap) : ScratchHashMap :=
  { h with keys := [] }

/-- The members of VoxelBlockGrid: voxel_size_ and block_resolution_,
name_attr_map_, and block_hashmap_ modelled by its capacity and its allocated
block-coordinate keys; frustum_hashmap_ starts as nullptr (none). -/
structure VoxelBlockGridState where
  voxel_size : ℚ
  block_resolution : ℤ
  name_attr_map : List (String × ℕ)
  block_capacity : ℕ
  device : String
  block_keys : List (ℤ × ℤ × ℤ)
  frustum_hashmap : Option ScratchHashMap
  deriving DecidableEq, Repr

/-- The VoxelBlockGrid constructor (part_002 lines 40-82): voxel_size_ and
block_resolution_ are stored verbatim from the arguments; LogError (modelled
as Except.error, a throw) happens only on attribute-count mismatches; the
name→slot map assigns slot i to the i-th attribute name; the block hash map
starts empty at the given capacity. No validation of voxel_size or
block_resolution occurs. -/
def construct (attr_names : List String) (attr_dtypes : List Dtype)
    (attr_channels : List (List ℕ)) (voxel_size : ℚ) (block_resolution : ℤ)
    (block_count : ℕ) (device : String) : Except String VoxelBlockGridState :=
  if attr_dtypes.length ≠ attr_names.length then
    Except.error "Number of attribute dtypes mismatch with names."
  else if attr_channels.length ≠ attr_names.length then
    Except.error "Number of attribute channels mismatch with names."
  else
    Except.ok
      { voxel_size := voxel_size
        block_resolution := block_resolution
        name_attr_map := attr_names.enum.map (fun p => (p.2, p.1))
        block_capacity := block_count
        device := device
        block_keys := []
        frustum_hashmap := none }

/-- Scratch-map management of GetUniqueBlockCoordinates(depth) (part_002 lines
153-164): on the first call (frustum_hashmap_ == nullptr) a map is allocated
with capacity (cols / down_factor) * (rows / down_factor) *
est_sample_multiplier, down_factor = 4, est_sample_multiplier = 4; on every
later call the existing map is Clear()-ed, whatever the image size. The
DepthTouch kernel then fills the map. -/
def depthTouchScratch (st : VoxelBlockGridState) (rows cols : ℕ) :
    VoxelBlockGridState :=
  let down_factor : ℕ := 4
  let est_sample_multiplier : ℕ := 4
  match st.frustum_hashmap with
  | none =>
      let capacity :=
        cols / down_factor * (rows / down_factor) * est_sample_multiplier
      { st with frustum_hashmap := some { capacity := capacity, keys := [] } }
  | some h => { st with frustum_hashmap := some h.Clear }

/-- Scratch-map management of GetUniqueBlockCoordinates(pcd) (part_002 lines
177-188): on the first call a map is allocated with capacity
positions.GetLength() * est_neighbor_multiplier, est_neighbor_multiplier = 8;
on every later call the existing map is Clear()-ed, whatever the point count. -/
def pointCloudTouchScratch (st : VoxelBlockGridState) (n_points : ℕ) :
    VoxelBlockGridState :=
  let est_neighbor_multiplier : ℕ := 8
  match st.frustum_hashmap with
  | none =>
      { st with
        frustum_hashmap := some ⟨n_points * est_neighbor_multiplier, []⟩ }
  | some h => { st with frustum_hashmap := some h.Clear }

/-- Modelled from the spec: CheckDepthTensor of t/geometry/Utility.h (not in
src/) — schema validation of the depth frame against the grid's device: a
rank-3 {rows, cols, 1} image of an allowed depth dtype, resident on
grid_device; wrong rank/dtype/device is fatal (LogError throw) before any
kernel launch. -/
def CheckDepthTensor (grid_device : String) (t : TensorMeta) :
    Except String Unit :=
  if t.shape.length = 3 ∧ t.shape.getD 2 0 = 1 ∧
      (t.dtype = Dtype.uint16 ∨ t.dtype = Dtype.float32) ∧
      t.device = grid_device then Except.ok ()
  else Except.error "unsupported shape, dtype or device for depth image"

/-- Modelled from the spec: CheckColorTensor of t/geometry/Utility.h (not in
src/) — schema validation of the color frame against the grid's device: a
rank-3 {rows, cols, 3} image of an allowed color dtype, resident on
grid_device. -/
def CheckColorTensor (grid_device : String) (t : TensorMeta) :
    Except String Unit :=
  if t.shape.length = 3 ∧ t.shape.getD 2 0 = 3 ∧
      (t.dtype = Dtype.uint8 ∨ t.dtype = Dtype.float32) ∧
      t.device = grid_device then Except.ok ()
  else Except.error "unsupported shape, dtype or device for color image"

/-- Modelled from the spec: CheckIntrinsicTensor of t/geometry/Utility.h (not
in src/) — the pinhole intrinsics must be a {3,3} matrix of a float dtype on
the grid's device. -/
def CheckIntrinsicTensor (grid_device : String) (t : TensorMeta) :
    Except String Unit :=
  if t.shape = [3, 3] ∧ (t.dtype = Dtype.float32 ∨ t.dtype = Dtype.float64) ∧
      t.device = grid_device then Except.ok ()
  else Except.error "unsupported shape, dtype or device for intrinsic matrix"

/-- Modelled from the spec: CheckExtrinsicTensor of t/geometry/Utility.h (not
in src/) — the world-to-camera pose must be a {4,4} matrix of a float dtype on
the grid's device. -/
def CheckExtrinsicTensor (grid_device : String) (t : TensorMeta) :
    Except String Unit :=
  if t.shape = [4, 4] ∧ (t.dtype = Dtype.float32 ∨ t.dtype = Dtype.float64) ∧
      t.device = grid_device then Except.ok ()
  else Except.error "unsupported shape, dtype or device for extrinsic matrix"

/-- Modelled from the spec: CheckBlockCoorinates of t/geometry/Utility.h (not
in src/, sic on the source spelling) — block coordinates must be an {n, 3}
integer tensor on the grid's device. -/
def CheckBlockCoorinates (grid_device : String) (t : TensorMeta) :
    Except String Unit :=
  if t.shape.length = 2 ∧ t.shape.getD 1 0 = 3 ∧ t.dtype = Dtype.int32 ∧
      t.device = grid_device then Except.ok ()
  else Except.error "unsupported shape, dtype or device for block coordinates"

/-- The five input tensors of Integrate (metadata for the checks, plus the
block-coordinate payload consumed by Activate when the checks pass). -/
structure IntegrateInputs where
  block_coords : TensorMeta
  depth : TensorMeta
  color : TensorMeta
  intrinsic : TensorMeta
  extrinsic : TensorMeta
  block_coords_data : List (ℤ × ℤ × ℤ)
  deriving DecidableEq, Repr

/-- core::HashMap::Activate — insert-if-absent of each key, preserving the
slots of already-present keys (capacity masking is not needed by the claims
below). -/
def activateKeys (keys : List (ℤ × ℤ × ℤ)) (new : List (ℤ × ℤ × ℤ)) :
    List (ℤ × ℤ × ℤ) :=
  new.foldl (fun acc k => if k ∈ acc then acc else acc ++ [k]) keys

/-- The validation prologue of VoxelBlockGrid::Integrate (part_002 lines
205-209), in source order, against the grid's device. -/
def integrateChecks (grid_device : String) (inp : IntegrateInputs) :
    Except String Unit := do
  CheckBlockCoorinates grid_device inp.block_coords
  CheckDepthTensor grid_device inp.depth
  CheckColorTensor grid_device inp.color
  CheckIntrinsicTensor grid_device inp.intrinsic
  CheckExtrinsicTensor grid_device inp.extrinsic

/-- Shallow embedding of VoxelBlockGrid::Integrate (part_002 lines 198-222):
the five Check functions run first; only after all pass does
block_hashmap_->Activate mutate the grid, and only then is the Integrate
kernel launched (the Bool in the result is true iff the kernel call was
reached). A throw from a check propagates with the incoming state intact,
because every member mutation comes after the checks in the source. -/
def Integrate (st : VoxelBlockGridState) (inp : IntegrateInputs) :
    VoxelBlockGridState × Bool × Except String Unit :=
  match integrateChecks st.device inp with
  | Except.error e => (st, false, Except.error e)
  | Except.ok _ =>
      ({ st with block_keys := activateKeys st.block_keys inp.block_coords_data },
       true, Except.ok ())

/-- A legacy (non-tensor) point cloud: its points_, colors_ and normals_
vectors. Has* predicates are non-emptiness, as in the legacy class. -/
structure LegacyPointCloud where
  points_ : List (ℚ × ℚ × ℚ)
  colors_ : List (ℚ × ℚ × ℚ)
  normals_ : List (ℚ × ℚ × ℚ)
  deriving DecidableEq, Repr

def LegacyPointCloud.HasPoints (p : LegacyPointCloud) : Bool :=
  !p.points_.isEmpty

def LegacyPointCloud.HasColors (p : LegacyPointCloud) : Bool :=
  !p.colors_.isEmpty

def LegacyPointCloud.HasNormals (p : LegacyPointCloud) : Bool :=
  !p.normals_.isEmpty

/-- A tensor point cloud: its optional named attributes; none means the
attribute was never set. -/
structure TPointCloud where
  points : Option (List (ℚ × ℚ × ℚ))
  colors : Option (List (ℚ × ℚ × ℚ))
  normals : Option (List (ℚ × ℚ × ℚ))
  deriving DecidableEq, Repr

/-- geometry::PointCloud(device): a fresh point cloud with no attributes. -/
def TPointCloud.fresh : TPointCloud := ⟨none, none, none⟩

/-- PointCloud::FromLegacyPointCloud (PointCloud.cpp lines 274-294): points
are set only when the legacy cloud has them, otherwise LogWarning (which only
records a message); colors and normals are set when present; there is no error
path in the body, so the function is total. Result: (warnings, point cloud). -/
def FromLegacyPointCloud (pcd_legacy : LegacyPointCloud) :
    List String × TPointCloud :=
  let s1 :=
    if pcd_legacy.HasPoints then
      (([] : List String), { TPointCloud.fresh with points := some pcd_legacy.points_ })
    else
      (["Creating from an empty legacy PointCloud."], TPointCloud.fresh)
  let s2 :=
    if pcd_legacy.HasColors then
      (s1.1, { s1.2 with colors := some pcd_legacy.colors_ })
    else s1
  if pcd_legacy.HasNormals then
    (s2.1, { s2.2 with normals := some pcd_legacy.normals_ })
  else s2

/-- Per-pixel contents of the RayCast output maps of part_002 lines 248-269:
vertex/color/normal are 3-channel, depth 1-channel, and the 8-entry
mask/ratio/index auxiliaries for trilinear interpolation. -/
structure PixelOut where
  vertex : ℚ × ℚ × ℚ
  depth : ℚ
  color : ℚ × ℚ × ℚ
  normal : ℚ × ℚ × ℚ
  mask : List Bool
  ratios : List ℚ
  indices : List ℤ
  deriving DecidableEq, Repr

/-- Interpolated values at the first valid TSDF zero crossing of a pixel's
ray, when one exists within [depth_min, depth_max]. -/
structure HitRecord where
  vertex : ℚ × ℚ × ℚ
  depth : ℚ
  color : ℚ × ℚ × ℚ
  normal : ℚ × ℚ × ℚ
  mask : List Bool
  ratios : List ℚ
  indices : List ℤ
  deriving DecidableEq, Repr

/-- Allocation of the renderings map in RayCast (part_002 lines 248-267):
vertex, depth, color, normal, ratio and index are plain core::Tensor
constructions — uninitialized memory, modelled by the arbitrary junk contents —
while mask is Tensor::Zeros, i.e. all false. -/
def rayCastAllocPixel (junk : PixelOut) : PixelOut :=
  { junk with mask := List.replicate 8 false }

/-- Modelled from the spec: the per-pixel body of kernel::voxel_grid::RayCast
(the kernel implementation is not in src/). Fully data-parallel per pixel; hit
abstracts the marching outcome within the pixel's [depth_min, depth_max]
range (some = first valid zero crossing with its interpolated values, none =
no valid crossing in range). On a hit the interpolated values and the
8-neighbor validity mask are written; on a miss the pixel's
depth/vertex/color/normal are written with the zero default and the mask
stays all false. -/
def rayCastKernelPixel (allocated : PixelOut) (hit : Option HitRecord) :
    PixelOut :=
  match hit with
  | some hrec =>
      { vertex := hrec.vertex, depth := hrec.depth, color := hrec.color,
        normal := hrec.normal, mask := hrec.mask, ratios := hrec.ratios,
        indices := hrec.indices }
  | none =>
      { allocated with
        vertex := (0, 0, 0), depth := 0, color := (0, 0, 0),
        normal := (0, 0, 0), mask := List.replicate 8 false }

/-- VoxelBlockGrid::RayCast (part_002 lines 224-280) viewed per output pixel:
allocate the maps (junk for the value maps, zeros for mask), then run the
kernel on every pixel. -/
def RayCast (junk : ℕ × ℕ → PixelOut) (hit : ℕ × ℕ → Option HitRecord)
    (p : ℕ × ℕ) : PixelOut :=
  rayCastKernelPixel (rayCastAllocPixel (junk p)) (hit p)

/-- One zero crossing detected by the surface-extraction kernel: its
interpolated position, normal and color. -/
structure SurfaceCrossing where
  position : ℚ × ℚ × ℚ
  normal : ℚ × ℚ × ℚ
  color : ℚ × ℚ × ℚ
  deriving DecidableEq, Repr

/-- Modelled from the spec: kernel::voxel_grid::ExtractSurfacePoints (the
kernel implementation is not in src/). It emits an interpolated point, normal
and color for each detected zero crossing, up to the caller-supplied
estimated budget; crossings beyond the budget are silently dropped — a lossy
truncation, not an error. crossings abstracts the zero crossings the kernel
detects, in kernel emission order. -/
def kernelExtractSurfacePoints (crossings : List SurfaceCrossing)
    (estimated_number : ℕ) :
    List (ℚ × ℚ × ℚ) × List (ℚ × ℚ × ℚ) × List (ℚ × ℚ × ℚ) :=
  let emitted := crossings.take estimated_number
  (emitted.map SurfaceCrossing.position,
   emitted.map SurfaceCrossing.normal,
   emitted.map SurfaceCrossing.color)

/-- Tensor::Slice(0, 0, stop) along dim 0: rows [0, stop). -/
def sliceRows (rows : List (ℚ × ℚ × ℚ)) (stop : ℕ) : List (ℚ × ℚ × ℚ) :=
  rows.take stop

/-- VoxelBlockGrid::ExtractSurfacePoints (part_002 lines 313-337): run the
kernel, then build PointCloud(points.Slice(0, 0, estimated_number)) and set
colors from the same slice; the SetPointNormals call is commented out in the
source, so normals are never attached. -/
def ExtractSurfacePoints (crossings : List SurfaceCrossing)
    (estimated_number : ℕ) : TPointCloud :=
  let r := kernelExtractSurfacePoints crossings estimated_number
  { points := some (sliceRows r.1 estimated_number)
    colors := some (sliceRows r.2.2 estimated_number)
    normals := none }

/-- A concrete grid used by the closed theorems below: attributes tsdf and
weight, voxel_size 1/100, block_resolution 16, capacity 1000, no scratch map
yet. -/
def exampleGrid : VoxelBlockGridState where
  voxel_size := 1/100
  block_resolution := 16
  name_attr_map := [("tsdf", 0), ("weight", 1)]
  block_capacity := 1000
  device := "CPU:0"
  block_keys := []
  frustum_hashmap := none

end Open3DVBG

namespace Open3DVBG

/-- C1: the claim states a missing-attribute lookup warns and returns an empty
tensor non-fatally; on the code, for a grid configured with attributes tsdf and
weight, GetAttribute("color") logs the warning but then throws
std::out_of_range from name_attr_map_.at, so the call is fatal. -/
theorem getAttribute_missing_attr_throws :
    (GetAttribute [("tsdf", 0), ("weight", 1)] (fun _ => []) "color").2 =
      Except.error "std::out_of_range" ∧
    (GetAttribute [("tsdf", 0), ("weight", 1)] (fun _ => []) "color").1 ≠ [] := by
  constructor
  · rfl
  · simp [GetAttribute, mapCount, mapAt]

/-- C4 counterexample: with voxel_size = 1/100 and block_resolution = 16, the
truncation margin passed by the point-cloud touch pass is 7/100, not
voxel_size × block_resolution / 2 = 8/100. -/
theorem pointCloudTouchTruncDist_ne_half_block :
    pointCloudTouchTruncDist (1/100) 16 ≠ (1/100 : ℚ) * (16 : ℚ) / 2 := by
  norm_num [pointCloudTouchTruncDist]

/-- C4 amended: the depth touch pass passes voxel_size × block_resolution / 2,
while the point-cloud touch pass passes voxel_size × (block_resolution - 2) / 2,
i.e. voxel_size × (block_resolution/2 - 1). -/
theorem touchTruncDist_formulas (vs : ℚ) (br : ℤ) :
    depthTouchTruncDist vs br = vs * (br : ℚ) / 2 ∧
    pointCloudTouchTruncDist vs br = vs * ((br : ℚ) - 2) / 2 := by
  constructor
  · unfold depthTouchTruncDist
    ring
  · unfold pointCloudTouchTruncDist
    ring

/-- C7: for positive resolution the decomposition produced by GetVoxelIndices
has every local offset in [0, resolution), recombining offsets as
z·resolution² + y·resolution + x recovers the linear index modulo resolution³,
and GetVoxelCoordinates maps block key and offsets to
block_coordinate × block_resolution + offset componentwise. -/
theorem voxelIndexDecompose_bounds_recompose (resolution l : ℕ)
    (h : 0 < resolution) :
    (voxelIndexDecompose resolution l).2.1 < resolution ∧
    (voxelIndexDecompose resolution l).2.2.1 < resolution ∧
    (voxelIndexDecompose resolution l).2.2.2 < resolution ∧
    (voxelIndexDecompose resolution l).2.2.2 * (resolution * resolution) +
      (voxelIndexDecompose resolution l).2.2.1 * resolution +
      (voxelIndexDecompose resolution l).2.1 =
      l % (resolution * resolution * resolution) ∧
    (∀ key : ℤ × ℤ × ℤ,
      getVoxelCoordinatesAt (resolution : ℤ) key
          (((voxelIndexDecompose resolution l).2.1 : ℤ),
           ((voxelIndexDecompose resolution l).2.2.1 : ℤ),
           ((voxelIndexDecompose resolution l).2.2.2 : ℤ)) =
        (key.1 * resolution + ((voxelIndexDecompose resolution l).2.1 : ℤ),
         key.2.1 * resolution + ((voxelIndexDecompose resolution l).2.2.1 : ℤ),
         key.2.2 * resolution + ((voxelIndexDecompose resolution l).2.2.2 : ℤ))) := by
  have h2 : 0 < resolution * resolution := Nat.mul_pos h h
  have h3 : 0 < resolution * resolution * resolution := Nat.mul_pos h2 h
  simp only [voxelIndexDecompose]
  have hrem : l - l / (resolution * resolution * resolution) *
      (resolution * resolution * resolution) =
      l % (resolution * resolution * resolution) := by
    rw [Nat.mod_def]
    ring_nf
  rw [hrem]
  set rem := l % (resolution * resolution * resolution) with hremdef
  have hremlt : rem < resolution * resolution * resolution := Nat.mod_lt _ h3
  have hx : rem - rem / resolution * resolution = rem % resolution := by
    rw [Nat.mod_def]
    ring_nf
  have hy : rem - rem / (resolution * resolution) * (resolution * resolution) =
      rem % (resolution * resolution) := by
    rw [Nat.mod_def]
    ring_nf
  rw [hx, hy]
  refine ⟨?_, ?_, ?_, ?_, ?_⟩
  · exact Nat.mod_lt _ h
  · rw [Nat.div_lt_iff_lt_mul h]
    calc rem % (resolution * resolution) < resolution * resolution :=
          Nat.mod_lt _ h2
      _ = resolution * resolution := rfl
  · rw [Nat.div_lt_iff_lt_mul h2]
    calc rem < resolution * resolution * resolution := hremlt
      _ = resolution * (resolution * resolution) := by ring
  · have e1 : resolution * resolution * (rem / (resolution * resolution)) +
        rem % (resolution * resolution) = rem :=
      Nat.div_add_mod rem (resolution * resolution)
    have e2 : resolution * (rem % (resolution * resolution) / resolution) +
        rem % (resolution * resolution) % resolution =
        rem % (resolution * resolution) :=
      Nat.div_add_mod (rem % (resolution * resolution)) resolution
    have e3 : rem % (resolution * resolution) % resolution = rem % resolution :=
      Nat.mod_mod_of_dvd rem ⟨resolution, rfl⟩
    calc rem / (resolution * resolution) * (resolution * resolution) +
          rem % (resolution * resolution) / resolution * resolution +
          rem % resolution
        = resolution * resolution * (rem / (resolution * resolution)) +
          (resolution * (rem % (resolution * resolution) / resolution) +
           rem % (resolution * resolution) % resolution) := by
          rw [e3]; ring
      _ = resolution * resolution * (rem / (resolution * resolution)) +
          rem % (resolution * resolution) := by rw [e2]
      _ = rem := e1
  · intro key
    rfl

/-- C7 witness: resolution 16 at linear index 70000. -/
theorem voxelIndexDecompose_bounds_recompose_witness :
    (voxelIndexDecompose 16 70000).2.1 < 16 ∧
    (voxelIndexDecompose 16 70000).2.2.1 < 16 ∧
    (voxelIndexDecompose 16 70000).2.2.2 < 16 ∧
    (voxelIndexDecompose 16 70000).2.2.2 * (16 * 16) +
      (voxelIndexDecompose 16 70000).2.2.1 * 16 +
      (voxelIndexDecompose 16 70000).2.1 = 70000 % (16 * 16 * 16) ∧
    (∀ key : ℤ × ℤ × ℤ,
      getVoxelCoordinatesAt (16 : ℤ) key
          (((voxelIndexDecompose 16 70000).2.1 : ℤ),
           ((voxelIndexDecompose 16 70000).2.2.1 : ℤ),
           ((voxelIndexDecompose 16 70000).2.2.2 : ℤ)) =
        (key.1 * 16 + ((voxelIndexDecompose 16 70000).2.1 : ℤ),
         key.2.1 * 16 + ((voxelIndexDecompose 16 70000).2.2.1 : ℤ),
         key.2.2 * 16 + ((voxelIndexDecompose 16 70000).2.2.2 : ℤ))) :=
  voxelIndexDecompose_bounds_recompose 16 70000 (by decide)

/-- C3 counterexample: after a first depth touch pass on a 64×64 image the
scratch map has capacity (64/4)·(64/4)·4 = 1024; a second call on a 480×640
image — a changed call signature — keeps capacity 1024 instead of rebuilding
at the larger (640/4)·(480/4)·4 = 76800, so the map is never rebuilt when the
signature changes. -/
theorem frustumScratch_not_rebuilt_on_size_change :
    ((depthTouchScratch (depthTouchScratch exampleGrid 64 64) 480 640).frustum_hashmap.map
        ScratchHashMap.capacity = some 1024) ∧
    640 / 4 * (480 / 4) * 4 = 76800 ∧ (1024 : ℕ) ≠ 76800 := by
  refine ⟨rfl, rfl, by decide⟩

/-- C3 amended: between touch-pass calls the scratch map is cleared in place —
same capacity, emptied keys — never rebuilt, even when the call signature
changes; only the very first call allocates it, with capacity sized from that
call's image resolution (cols/4 · rows/4 · 4) or point count (n · 8). -/
theorem frustumScratch_clear_policy (st : VoxelBlockGridState)
    (rows cols n : ℕ) (h : ScratchHashMap) :
    (depthTouchScratch { st with frustum_hashmap := none } rows cols).frustum_hashmap =
      some { capacity := cols / 4 * (rows / 4) * 4, keys := [] } ∧
    (depthTouchScratch { st with frustum_hashmap := some h } rows cols).frustum_hashmap =
      some { capacity := h.capacity, keys := [] } ∧
    (pointCloudTouchScratch { st with frustum_hashmap := none } n).frustum_hashmap =
      some { capacity := n * 8, keys := [] } ∧
    (pointCloudTouchScratch { st with frustum_hashmap := some h } n).frustum_hashmap =
      some { capacity := h.capacity, keys := [] } := by
  refine ⟨rfl, rfl, rfl, rfl⟩

/-- C5: whenever any of the five input tensors of Integrate fails its schema
check against the grid (wrong shape, dtype or device), the call returns the
error of the failing check, no kernel is launched, and the grid state is
returned unchanged — no partial integration. -/
theorem integrate_malformed_input_no_mutation (st : VoxelBlockGridState)
    (inp : IntegrateInputs) (h : ¬ (integrateChecks st.device inp).isOk = true) :
    (Integrate st inp).1 = st ∧ (Integrate st inp).2.1 = false ∧
    (Integrate st inp).2.2.isOk = false := by
  cases heq : integrateChecks st.device inp with
  | ok u => rw [heq] at h; simp [Except.isOk, Except.toBool] at h
  | error e => simp [Integrate, heq, Except.isOk, Except.toBool]

/-- C5 witness: a well-shaped, well-typed depth image residing on the wrong
device (CUDA:0 against a CPU:0 grid) is rejected with the grid untouched. -/
theorem integrate_malformed_input_no_mutation_witness :
    (Integrate exampleGrid
        { block_coords := ⟨[1, 3], Dtype.int32, "CPU:0"⟩,
          depth := ⟨[480, 640, 1], Dtype.uint16, "CUDA:0"⟩,
          color := ⟨[480, 640, 3], Dtype.uint8, "CPU:0"⟩,
          intrinsic := ⟨[3, 3], Dtype.float64, "CPU:0"⟩,
          extrinsic := ⟨[4, 4], Dtype.float64, "CPU:0"⟩,
          block_coords_data := [(0, 0, 0)] }).1 = exampleGrid ∧
    (Integrate exampleGrid
        { block_coords := ⟨[1, 3], Dtype.int32, "CPU:0"⟩,
          depth := ⟨[480, 640, 1], Dtype.uint16, "CUDA:0"⟩,
          color := ⟨[480, 640, 3], Dtype.uint8, "CPU:0"⟩,
          intrinsic := ⟨[3, 3], Dtype.float64, "CPU:0"⟩,
          extrinsic := ⟨[4, 4], Dtype.float64, "CPU:0"⟩,
          block_coords_data := [(0, 0, 0)] }).2.1 = false ∧
    (Integrate exampleGrid
        { block_coords := ⟨[1, 3], Dtype.int32, "CPU:0"⟩,
          depth := ⟨[480, 640, 1], Dtype.uint16, "CUDA:0"⟩,
          color := ⟨[480, 640, 3], Dtype.uint8, "CPU:0"⟩,
          intrinsic := ⟨[3, 3], Dtype.float64, "CPU:0"⟩,
          extrinsic := ⟨[4, 4], Dtype.float64, "CPU:0"⟩,
          block_coords_data := [(0, 0, 0)] }).2.2.isOk = false :=
  integrate_malformed_input_no_mutation exampleGrid _ (by decide)

/-- C8 counterexample: construction with voxel_size = -1/100 succeeds and the
grid stores the nonpositive value, so construction does not establish the
voxel_size > 0 invariant. -/
theorem construct_accepts_nonpositive_voxel_size :
    ((construct ["tsdf", "weight"] [Dtype.float32, Dtype.uint16] [[1], [1]]
        (-1/100) 16 1000 "CPU:0").toOption.map VoxelBlockGridState.voxel_size =
      some (-1/100)) ∧ ¬ (0 : ℚ) < -1/100 := by
  constructor
  · rfl
  · norm_num

/-- C8 amended: voxel_size is stored verbatim by the constructor (with no
positivity validation) and is never modified afterwards: the touch passes and
Integrate leave it unchanged. -/
theorem voxel_size_fixed (st : VoxelBlockGridState) (rows cols n : ℕ)
    (inp : IntegrateInputs) (attr_names : List String)
    (attr_dtypes : List Dtype) (attr_channels : List (List ℕ)) (vs : ℚ)
    (br : ℤ) (bc : ℕ) (dev : String) (g : VoxelBlockGridState)
    (h : construct attr_names attr_dtypes attr_channels vs br bc dev =
      Except.ok g) :
    g.voxel_size = vs ∧
    (depthTouchScratch st rows cols).voxel_size = st.voxel_size ∧
    (pointCloudTouchScratch st n).voxel_size = st.voxel_size ∧
    ((Integrate st inp).1).voxel_size = st.voxel_size := by
  refine ⟨?_, ?_, ?_, ?_⟩
  · unfold construct at h
    by_cases h1 : attr_dtypes.length = attr_names.length
    · by_cases h2 : attr_channels.length = attr_names.length
      · simp [h1, h2] at h
        rw [← h]
      · simp [h1, h2] at h
    · simp [h1] at h
  · cases hf : st.frustum_hashmap <;> simp [depthTouchScratch, hf]
  · cases hf : st.frustum_hashmap <;> simp [pointCloudTouchScratch, hf]
  · cases heq : integrateChecks st.device inp <;> simp [Integrate, heq]

/-- C8 amended witness: a concrete construction with voxel_size 1/100. -/
theorem voxel_size_fixed_witness :
    exampleGrid.voxel_size = 1/100 ∧
    (depthTouchScratch exampleGrid 64 64).voxel_size = exampleGrid.voxel_size ∧
    (pointCloudTouchScratch exampleGrid 5).voxel_size = exampleGrid.voxel_size ∧
    ((Integrate exampleGrid
        { block_coords := ⟨[1, 3], Dtype.int32, "CPU:0"⟩,
          depth := ⟨[480, 640, 1], Dtype.uint16, "CPU:0"⟩,
          color := ⟨[480, 640, 3], Dtype.uint8, "CPU:0"⟩,
          intrinsic := ⟨[3, 3], Dtype.float64, "CPU:0"⟩,
          extrinsic := ⟨[4, 4], Dtype.float64, "CPU:0"⟩,
          block_coords_data := [(0, 0, 0)] }).1).voxel_size =
      exampleGrid.voxel_size :=
  voxel_size_fixed exampleGrid 64 64 5 _ ["tsdf", "weight"]
    [Dtype.float32, Dtype.uint16] [[1], [1]] (1/100) 16 1000 "CPU:0"
    exampleGrid rfl

/-- C9: converting a legacy point cloud without points warns, does not fail
(the embedding is a total function with no error channel, matching the
error-free source body), and leaves the points attribute unset in the
result. -/
theorem fromLegacyPointCloud_empty_warns (pcd_legacy : LegacyPointCloud)
    (h : pcd_legacy.points_ = []) :
    (FromLegacyPointCloud pcd_legacy).1 =
      ["Creating from an empty legacy PointCloud."] ∧
    (FromLegacyPointCloud pcd_legacy).2.points = none := by
  simp only [FromLegacyPointCloud, LegacyPointCloud.HasPoints,
    LegacyPointCloud.HasColors, LegacyPointCloud.HasNormals, h]
  by_cases hc : pcd_legacy.colors_.isEmpty <;>
    by_cases hn : pcd_legacy.normals_.isEmpty <;>
      simp [hc, hn, TPointCloud.fresh]

/-- C9 witness: the empty legacy point cloud. -/
theorem fromLegacyPointCloud_empty_warns_witness :
    (FromLegacyPointCloud ⟨[], [], []⟩).1 =
      ["Creating from an empty legacy PointCloud."] ∧
    (FromLegacyPointCloud ⟨[], [], []⟩).2.points = none :=
  fromLegacyPointCloud_empty_warns ⟨[], [], []⟩ rfl

/-- C2: at every output pixel whose ray has no valid TSDF zero crossing within
[depth_min, depth_max] (hit p = none), the RayCast result holds the zero
default in depth, vertex, color and normal — whatever junk the uninitialized
allocation held — and the 8-entry mask is all false. -/
theorem rayCast_miss_pixel_zero_default (junk : ℕ × ℕ → PixelOut)
    (hit : ℕ × ℕ → Option HitRecord) (p : ℕ × ℕ) (h : hit p = none) :
    (RayCast junk hit p).depth = 0 ∧
    (RayCast junk hit p).vertex = (0, 0, 0) ∧
    (RayCast junk hit p).color = (0, 0, 0) ∧
    (RayCast junk hit p).normal = (0, 0, 0) ∧
    (RayCast junk hit p).mask = List.replicate 8 false := by
  simp [RayCast, rayCastKernelPixel, h]

/-- C2 witness: a junk allocation map with nonzero contents and a hit map that
misses everywhere, at pixel (0, 0). -/
theorem rayCast_miss_pixel_zero_default_witness :
    (RayCast (fun _ => ⟨(7, 7, 7), 7, (7, 7, 7), (7, 7, 7), [true], [7], [7]⟩)
        (fun _ => none) (0, 0)).depth = 0 ∧
    (RayCast (fun _ => ⟨(7, 7, 7), 7, (7, 7, 7), (7, 7, 7), [true], [7], [7]⟩)
        (fun _ => none) (0, 0)).vertex = (0, 0, 0) ∧
    (RayCast (fun _ => ⟨(7, 7, 7), 7, (7, 7, 7), (7, 7, 7), [true], [7], [7]⟩)
        (fun _ => none) (0, 0)).color = (0, 0, 0) ∧
    (RayCast (fun _ => ⟨(7, 7, 7), 7, (7, 7, 7), (7, 7, 7), [true], [7], [7]⟩)
        (fun _ => none) (0, 0)).normal = (0, 0, 0) ∧
    (RayCast (fun _ => ⟨(7, 7, 7), 7, (7, 7, 7), (7, 7, 7), [true], [7], [7]⟩)
        (fun _ => none) (0, 0)).mask = List.replicate 8 false :=
  rayCast_miss_pixel_zero_default
    (fun _ => ⟨(7, 7, 7), 7, (7, 7, 7), (7, 7, 7), [true], [7], [7]⟩)
    (fun _ => none) (0, 0) rfl

/-- C6: the point cloud returned by ExtractSurfacePoints holds at most
estimated_number points, and when the true number of zero crossings reaches or
exceeds the estimate, exactly estimated_number points are emitted — a silent
truncation, with no error channel in the embedding, matching the error-free
source body. -/
theorem extractSurfacePoints_budget (crossings : List SurfaceCrossing)
    (estimated_number : ℕ) :
    ((ExtractSurfacePoints crossings estimated_number).points.getD []).length ≤
      estimated_number ∧
    (estimated_number ≤ crossings.length →
      ((ExtractSurfacePoints crossings estimated_number).points.getD []).length =
        estimated_number) := by
  simp only [ExtractSurfacePoints, kernelExtractSurfacePoints, sliceRows,
    Option.getD_some, List.length_take, List.length_map]
  constructor
  · omega
  · intro hle
    omega

/-- C6 witness: two crossings against a budget of one yield exactly one
point. -/
theorem extractSurfacePoints_budget_witness :
    ((ExtractSurfacePoints
        [⟨(0, 0, 0), (1, 0, 0), (1, 1, 1)⟩, ⟨(1, 0, 0), (1, 0, 0), (1, 1, 1)⟩]
        1).points.getD []).length ≤ 1 ∧
    (1 ≤ ([⟨(0, 0, 0), (1, 0, 0), (1, 1, 1)⟩,
           ⟨(1, 0, 0), (1, 0, 0), (1, 1, 1)⟩] : List SurfaceCrossing).length →
      ((ExtractSurfacePoints
          [⟨(0, 0, 0), (1, 0, 0), (1, 1, 1)⟩, ⟨(1, 0, 0), (1, 0, 0), (1, 1, 1)⟩]
          1).points.getD []).length = 1) :=
  extractSurfacePoints_budget
    [⟨(0, 0, 0), (1, 0, 0), (1, 1, 1)⟩, ⟨(1, 0, 0), (1, 0, 0), (1, 1, 1)⟩] 1

/-- C10: the point cloud returned by ExtractSurfacePoints carries exactly the
position and color attributes; the kernel does compute normals — one per
emitted point — yet they are never attached to the returned point cloud. -/
theorem extractSurfacePoints_no_normals (crossings : List SurfaceCrossing)
    (estimated_number : ℕ) :
    (ExtractSurfacePoints crossings estimated_number).points.isSome = true ∧
    (ExtractSurfacePoints crossings estimated_number).colors.isSome = true ∧
    (ExtractSurfacePoints crossings estimated_number).normals = none ∧
    (kernelExtractSurfacePoints crossings estimated_number).2.1.length =
      (kernelExtractSurfacePoints crossings estimated_number).1.length := by
  refine ⟨rfl, rfl, rfl, ?_⟩
  simp [kernelExtractSurfacePoints]

end Open3DVBG
